import Mathlib

/-!
Verification of the watering-schedule updater
(`backend/daily_watering_update/__init__.py`).

The embedding models plant documents as records whose optional JSON
fields are `Option`s (`none` = field absent from the document), the
weather oracle response as an optional record carrying the list of
condition codes, and the document store as a list of plant documents
with Cosmos-style upsert-by-`(id, businessId)` semantics.  Dates are
the `YYYY-MM-DD` strings the Python code compares for equality.
-/

namespace DailyWateringUpdate

/-- The `location.gpsCoordinates` value, a latitude/longitude pair.
Coordinates are only forwarded to the weather oracle, never computed
with, so they are modelled as integers. -/
structure Coordinates where
  latitude : Int
  longitude : Int
deriving DecidableEq

/-- A plant document's `location` object; `gpsCoordinates` is optional. -/
structure Location where
  gpsCoordinates : Option Coordinates
deriving DecidableEq

/-- One entry of the OpenWeatherMap `weather` array; the code reads only
its `id` (the numeric condition code). -/
structure WeatherCondition where
  id : Int
deriving DecidableEq

/-- The weather oracle's JSON response; the `weather` key may be absent
(`none`) and its array may be empty. -/
structure WeatherData where
  weather : Option (List WeatherCondition)
deriving DecidableEq

/-- The rain classifier `did_it_rain(weather_data)`: `False` for a missing (`None`/falsy)
response, a response without a `weather` key, or an empty `weather`
array; otherwise `200 <= weather[0].id < 600`. -/
def did_it_rain : Option WeatherData → Bool
  | none => false
  | some w =>
    match w.weather with
    | none => false
    | some [] => false
    | some (c :: _) => decide (200 ≤ c.id ∧ c.id < 600)

/-- The embedded `wateringSchedule` object.  `activeWaterDays` and
`lastWateringUpdate` are `Option`s because the Python code reads them
defensively (`.get('activeWaterDays', 0)`, `.get('lastWateringUpdate')`);
`waterDays` is read with direct indexing, so it is modelled as present. -/
structure WateringSchedule where
  waterDays : Int
  activeWaterDays : Option Int
  lastWatered : Option String
  lastWateringUpdate : Option String
  needsWatering : Bool
  weatherAffected : Bool
deriving DecidableEq

/-- A plant document.  `id` and `businessId` are the document keys;
`productType`, `location`, `water_days` and `wateringSchedule` are
optional JSON fields (`none` = absent). -/
structure Plant where
  id : String
  businessId : String
  productType : Option String
  location : Option Location
  water_days : Option Int
  wateringSchedule : Option WateringSchedule
deriving DecidableEq

/-- The plant's GPS coordinates, if its `location.gpsCoordinates` path
is defined. -/
def Plant.gps (p : Plant) : Option Coordinates :=
  p.location.bind Location.gpsCoordinates

/-- The `if has_rained / elif lastWateringUpdate != today / else` ladder
that `update_plants_watering_schedule` applies to an existing schedule
(after lazy initialization).  Returns the schedule together with the
`needs_update` flag, threading through the flag already set by
initialization. -/
def stepSchedule (today : String) (has_rained : Bool)
    (s : WateringSchedule) (needs_update : Bool) : WateringSchedule × Bool :=
  if has_rained then
    ({ s with activeWaterDays := some s.waterDays,
              needsWatering := false,
              weatherAffected := true,
              lastWateringUpdate := some today }, true)
  else if s.lastWateringUpdate ≠ some today then
    let newActive : Int := max 0 (s.activeWaterDays.getD 0 - 1)
    ({ s with activeWaterDays := some newActive,
              needsWatering := decide (newActive ≤ 0),
              weatherAffected := false,
              lastWateringUpdate := some today }, true)
  else
    (s, needs_update)

/-- The schedule created lazily when `'wateringSchedule' not in plant`,
using `plant.get('water_days', 7)` for both `waterDays` and
`activeWaterDays`. -/
def initialSchedule (today : String) (p : Plant) : WateringSchedule :=
  let water_days := p.water_days.getD 7
  { waterDays := water_days,
    activeWaterDays := some water_days,
    lastWatered := none,
    lastWateringUpdate := some today,
    needsWatering := false,
    weatherAffected := false }

/-- The per-plant body of the loop in `update_plants_watering_schedule`:
initialize the schedule if absent (marking dirty), then run the weather
ladder.  Returns the in-memory plant together with `needs_update`. -/
def updatePlant (today : String) (has_rained : Bool) (p : Plant) :
    Plant × Bool :=
  let init : WateringSchedule × Bool :=
    match p.wateringSchedule with
    | none => (initialSchedule today p, true)
    | some s => (s, false)
  let stepped := stepSchedule today has_rained init.1 init.2
  ({ p with wateringSchedule := some stepped.1 }, stepped.2)

/-- The three-field document appended to `updates` and passed verbatim to
`container.upsert_item`: only `id`, `businessId` and `wateringSchedule`
are set; every other field of the original document is absent (`none`). -/
def mkUpsertDoc (business_id : String) (p : Plant) : Plant :=
  { id := p.id,
    businessId := business_id,
    productType := none,
    location := none,
    water_days := none,
    wateringSchedule := p.wateringSchedule }

/-- Cosmos `upsert_item` keyed by `(id, partition key businessId)`:
replace the matching document if one exists, otherwise insert. -/
def upsert_item (store : List Plant) (doc : Plant) : List Plant :=
  if store.any fun q => decide (q.id = doc.id ∧ q.businessId = doc.businessId) then
    store.map fun q =>
      if q.id = doc.id ∧ q.businessId = doc.businessId then doc else q
  else
    store ++ [doc]

/-- Apply a list of upserts in order.  The Python code slices `updates`
into batches of 20 but still writes each item individually, so the net
store effect is this sequential fold. -/
def applyUpserts (store : List Plant) : List Plant → List Plant
  | [] => store
  | d :: ds => applyUpserts (upsert_item store d) ds

/-- The plants query of `update_plants_watering_schedule`:
`businessId = @businessId AND productType = 'plant'`. -/
def plantsOf (business_id : String) (store : List Plant) : List Plant :=
  (store.filter fun p => decide (p.businessId = business_id)).filter
    fun p => decide (p.productType = some "plant")

/-- The happy path of `update_plants_watering_schedule`: load the
business's plants, run the per-plant transition, collect a three-field
upsert document for each dirty plant, and upsert them all.  Returns the
resulting store together with the list of upserted documents. -/
def update_plants_watering_schedule (today : String) (has_rained : Bool)
    (business_id : String) (store : List Plant) :
    List Plant × List Plant :=
  let results := (plantsOf business_id store).map (updatePlant today has_rained)
  let updates := (results.filter fun r => r.2).map
    fun r => mkUpsertDoc business_id r.1
  (applyUpserts store updates, updates)

/-- The discovery query of `main`:
`SELECT DISTINCT c.businessId WHERE c.productType = 'plant' AND IS_DEFINED(c.location)`.
`DISTINCT` keeps the first occurrence of each id. -/
def discoverBusinesses (store : List Plant) : List String :=
  ((store.filter fun p =>
      decide (p.productType = some "plant" ∧ p.location.isSome)).map
    Plant.businessId).dedup

/-- The representative-location query of `main`:
`SELECT TOP 1 c.location.gpsCoordinates WHERE c.businessId = @businessId AND
c.productType = 'plant' AND IS_DEFINED(c.location.gpsCoordinates)` — the
conjunctive filter is rendered as composed filters, `TOP 1` as `head?`. -/
def representativeGps (store : List Plant) (business_id : String) :
    Option Coordinates :=
  ((((store.filter fun p => decide (p.businessId = business_id)).filter
      fun p => decide (p.productType = some "plant" ∧ p.gps.isSome)).head?).bind
    Plant.gps)

/-- The per-business loop of `main`, with fault injection for the store
read inside `update_plants_watering_schedule` (`fails b = true` means the
plants query for business `b` raises).  Such an exception is logged and
re-raised by `update_plants_watering_schedule`, and `main`'s single
`try/except` wrapping the whole loop logs and re-raises again, so the run
aborts: the result's `Bool` is the aborted flag, and on abort the store
is returned as it was at that point (nothing further is written).
A weather failure needs no injection point: `check_weather` catches every
exception and returns `None`, which the oracle argument already covers. -/
def runBusinesses (check_weather : Int → Int → Option WeatherData)
    (today : String) (fails : String → Bool) (store : List Plant) :
    List String → List Plant × Bool
  | [] => (store, false)
  | b :: rest =>
    match representativeGps store b with
    | none => runBusinesses check_weather today fails store rest
    | some coords =>
      let has_rained :=
        did_it_rain (check_weather coords.latitude coords.longitude)
      if fails b then
        (store, true)
      else
        let store' :=
          (update_plants_watering_schedule today has_rained b store).1
        runBusinesses check_weather today fails store' rest

/-- The entry point `main`: discover the businesses, then process them in order. -/
def main (check_weather : Int → Int → Option WeatherData) (today : String)
    (fails : String → Bool) (store : List Plant) : List Plant × Bool :=
  runBusinesses check_weather today fails store (discoverBusinesses store)

/-! ## Helper lemmas about the per-plant transition -/

/-- After any run of the per-plant transition the plant carries a
schedule whose `lastWateringUpdate` is today: every mutating branch
stamps `today`, and the skip branch is only taken when the stamp already
equals today. -/
lemma updatePlant_lwu (today : String) (has_rained : Bool) (p : Plant) :
    ∃ s, ((updatePlant today has_rained p).1).wateringSchedule = some s ∧
      s.lastWateringUpdate = some today := by
  obtain ⟨i, b, pt, loc, wd, ws⟩ := p
  cases ws with
  | none =>
    cases has_rained <;>
      simp [updatePlant, initialSchedule, stepSchedule]
  | some s =>
    cases has_rained with
    | false =>
      by_cases hl : s.lastWateringUpdate = some today <;>
        simp [updatePlant, stepSchedule, hl]
    | true => simp [updatePlant, stepSchedule]

/-- A no-rain run on a plant whose schedule is already stamped with
today is a no-op: the plant is returned unchanged with
`needs_update = False`. -/
lemma updatePlant_noop (today : String) (p : Plant) (s : WateringSchedule)
    (h : p.wateringSchedule = some s)
    (hl : s.lastWateringUpdate = some today) :
    updatePlant today false p = (p, false) := by
  obtain ⟨i, b, pt, loc, wd, ws⟩ := p
  cases ws with
  | none => simp at h
  | some s' =>
    simp only [Option.some.injEq] at h
    subst h
    simp [updatePlant, stepSchedule, hl]

/-- The schedule slot is always filled after the per-plant transition. -/
lemma updatePlant_isSome (today : String) (has_rained : Bool) (p : Plant) :
    ((updatePlant today has_rained p).1).wateringSchedule.isSome = true := by
  obtain ⟨s, hs, _⟩ := updatePlant_lwu today has_rained p
  simp [hs]

/-! ## Claim theorems -/

/-- C4: `did_it_rain` returns `true` exactly when the response is present
and its `weather` array is non-empty with first condition code in
`[200, 600)`; in particular a `None` response or a response without a
non-empty `weather` array yields `false` (the function is total, so it
never raises). -/
theorem did_it_rain_iff (wd : Option WeatherData) :
    did_it_rain wd = true ↔
      ∃ w c rest, wd = some w ∧ w.weather = some (c :: rest) ∧
        200 ≤ c.id ∧ c.id < 600 := by
  cases wd with
  | none => simp [did_it_rain]
  | some w =>
    obtain ⟨weather⟩ := w
    cases weather with
    | none => simp [did_it_rain]
    | some l =>
      cases l with
      | nil => simp [did_it_rain]
      | cons c rest =>
        simp [did_it_rain]

/-- C3: a plant lacking `wateringSchedule` gets, after one run, a
schedule with `activeWaterDays = waterDays = plant.get('water_days', 7)`
(the base interval when set, the default 7 otherwise) — whether or not
rain was detected. -/
theorem init_schedule_sets_full_countdown (today : String)
    (has_rained : Bool) (p : Plant) (h : p.wateringSchedule = none) :
    ∃ s, ((updatePlant today has_rained p).1).wateringSchedule = some s ∧
      s.activeWaterDays = some s.waterDays ∧
      s.waterDays = p.water_days.getD 7 := by
  obtain ⟨i, b, pt, loc, wd, ws⟩ := p
  simp only at h
  subst h
  cases has_rained <;>
    simp [updatePlant, initialSchedule, stepSchedule]

/-- C5: when rain is detected, a plant with an existing schedule gets
`activeWaterDays := waterDays`, `needsWatering := false`,
`weatherAffected := true`, `lastWateringUpdate := today`, and is marked
dirty — with no condition on `lastWateringUpdate`, so also when the
plant was already stamped with today. -/
theorem rain_resets_schedule (today : String) (p : Plant)
    (s : WateringSchedule) (h : p.wateringSchedule = some s) :
    updatePlant today true p =
      ({ p with wateringSchedule := some { s with
          activeWaterDays := some s.waterDays,
          needsWatering := false,
          weatherAffected := true,
          lastWateringUpdate := some today } }, true) := by
  obtain ⟨i, b, pt, loc, wd, ws⟩ := p
  simp only [Option.some.injEq] at h
  cases ws with
  | none => simp at h
  | some s' =>
    simp only [Option.some.injEq] at h
    subst h
    simp [updatePlant, stepSchedule]

/-- C6: with no rain and `lastWateringUpdate ≠ today`, a plant with an
existing schedule whose countdown is `a` transitions to
`activeWaterDays = max 0 (a - 1)`, `needsWatering = (new value ≤ 0)`,
`weatherAffected = false`, `lastWateringUpdate = today`, marked dirty. -/
theorem no_rain_daily_decrement (today : String) (p : Plant)
    (s : WateringSchedule) (a : Int) (h : p.wateringSchedule = some s)
    (hl : s.lastWateringUpdate ≠ some today)
    (ha : s.activeWaterDays = some a) :
    updatePlant today false p =
      ({ p with wateringSchedule := some { s with
          activeWaterDays := some (max 0 (a - 1)),
          needsWatering := decide (max 0 (a - 1) ≤ 0),
          weatherAffected := false,
          lastWateringUpdate := some today } }, true) := by
  obtain ⟨i, b, pt, loc, wd, ws⟩ := p
  cases ws with
  | none => simp at h
  | some s' =>
    simp only [Option.some.injEq] at h
    subst h
    simp [updatePlant, stepSchedule, hl, ha]

/-- C7: a second no-rain run on the same day is a no-op for a plant with
an existing schedule: the state is returned unchanged and
`needs_update = False`, so the plant is not appended to `updates` and no
upsert is issued for it. -/
theorem second_run_same_day_noop (today : String) (p : Plant)
    (s : WateringSchedule) (_h : p.wateringSchedule = some s) :
    updatePlant today false ((updatePlant today false p).1) =
      ((updatePlant today false p).1, false) := by
  obtain ⟨s1, hs1, hl1⟩ := updatePlant_lwu today false p
  exact updatePlant_noop today _ s1 hs1 hl1

/-- C9 (amended): in the absence of rain the countdown is mutated at
most once per calendar day — a no-rain run on a plant already stamped
with today changes nothing and marks nothing dirty.  (Rain-triggered
resets are exempt: they re-stamp regardless of the date, see the
counterexample.) -/
theorem no_rain_same_day_noop (today : String) (p : Plant)
    (s : WateringSchedule) (h : p.wateringSchedule = some s)
    (hl : s.lastWateringUpdate = some today) :
    updatePlant today false p = (p, false) :=
  updatePlant_noop today p s h hl

/-- A schedule last mutated on 2024-01-01, countdown 5 of 7. -/
def cexSchedule : WateringSchedule :=
  { waterDays := 7, activeWaterDays := some 5, lastWatered := none,
    lastWateringUpdate := some "2024-01-01", needsWatering := false,
    weatherAffected := false }

/-- A plant carrying `cexSchedule`. -/
def cexPlant : Plant :=
  { id := "p9", businessId := "b9", productType := some "plant",
    location := none, water_days := none,
    wateringSchedule := some cexSchedule }

/-- C9 is false as stated: on 2024-01-02 a no-rain run decrements the
countdown to 4 and stamps the day, and a second run on the same day with
rain detected resets the countdown to 7 — two countdown mutations within
one calendar day. -/
theorem countdown_twice_same_day_cex :
    (((updatePlant "2024-01-02" false cexPlant).1).wateringSchedule.map
        fun s => (s.activeWaterDays, s.lastWateringUpdate)) =
      some (some 4, some "2024-01-02") ∧
    (((updatePlant "2024-01-02" true
          ((updatePlant "2024-01-02" false cexPlant).1)).1).wateringSchedule.map
        fun s => (s.activeWaterDays, s.lastWateringUpdate)) =
      some (some 7, some "2024-01-02") := by decide

/-- A fresh plant whose base interval field is set to 0. -/
def zeroDaysPlant : Plant :=
  { id := "p0", businessId := "b0", productType := some "plant",
    location := none, water_days := some 0, wateringSchedule := none }

/-- C2 is false as stated: a plant with `water_days = 0` and no schedule
ends a no-rain run with `activeWaterDays = 0 ≤ 0` yet
`needsWatering = false` — the claimed iff fails. -/
theorem needs_watering_iff_cex :
    (((updatePlant "2024-01-02" false zeroDaysPlant).1).wateringSchedule.map
        fun s => (s.needsWatering, s.activeWaterDays)) =
      some (false, some 0) := by decide

/-- C2 (amended): for every plant the run marks dirty whose resulting
schedule has `waterDays ≥ 1`, the schedule satisfies
`needsWatering = true` iff `activeWaterDays ≤ 0`.  (Plants not marked
dirty are returned unchanged, so only a pre-existing violation or a
non-positive base interval can break the invariant.) -/
theorem dirty_plant_needs_watering_iff (today : String) (has_rained : Bool)
    (p : Plant) (s : WateringSchedule)
    (hdirty : (updatePlant today has_rained p).2 = true)
    (hs : ((updatePlant today has_rained p).1).wateringSchedule = some s)
    (hw : 1 ≤ s.waterDays) :
    ∃ a, s.activeWaterDays = some a ∧ (s.needsWatering = true ↔ a ≤ 0) := by
  obtain ⟨i, b, pt, loc, wd, ws⟩ := p
  cases ws with
  | none =>
    cases has_rained <;>
      · simp [updatePlant, initialSchedule, stepSchedule] at hs
        obtain rfl := hs.symm
        simp only at hw ⊢
        refine ⟨wd.getD 7, rfl, ?_⟩
        simp
        omega
  | some s' =>
    cases has_rained with
    | true =>
      simp [updatePlant, stepSchedule] at hs
      obtain rfl := hs.symm
      simp only at hw ⊢
      refine ⟨s'.waterDays, rfl, ?_⟩
      simp
      omega
    | false =>
      by_cases hl : s'.lastWateringUpdate = some today
      · simp [updatePlant, stepSchedule, hl] at hdirty
      · simp [updatePlant, stepSchedule, hl] at hs
        obtain rfl := hs.symm
        refine ⟨max 0 (s'.activeWaterDays.getD 0 - 1), rfl, ?_⟩
        simp

/-! ## Concrete fixtures and witnesses -/

/-- A fresh plant (no schedule) with base interval 5. -/
def freshPlant : Plant :=
  { id := "p3", businessId := "b3", productType := some "plant",
    location := none, water_days := some 5, wateringSchedule := none }

/-- The schedule `freshPlant` receives on a no-rain 2024-01-02 run. -/
def freshPlantSchedule : WateringSchedule :=
  { waterDays := 5, activeWaterDays := some 5, lastWatered := none,
    lastWateringUpdate := some "2024-01-02", needsWatering := false,
    weatherAffected := false }

/-- C3 witness at `freshPlant`. -/
theorem init_schedule_sets_full_countdown_witness :
    ∃ s, ((updatePlant "2024-01-02" false freshPlant).1).wateringSchedule =
        some s ∧
      s.activeWaterDays = some s.waterDays ∧
      s.waterDays = freshPlant.water_days.getD 7 :=
  init_schedule_sets_full_countdown "2024-01-02" false freshPlant rfl

/-- C5 witness at `cexPlant` (schedule stamped 2024-01-01). -/
theorem rain_resets_schedule_witness :
    updatePlant "2024-01-02" true cexPlant =
      ({ cexPlant with wateringSchedule := some { cexSchedule with
          activeWaterDays := some cexSchedule.waterDays,
          needsWatering := false,
          weatherAffected := true,
          lastWateringUpdate := some "2024-01-02" } }, true) :=
  rain_resets_schedule "2024-01-02" cexPlant cexSchedule rfl

/-- C6 witness at `cexPlant`: countdown 5 drops to `max 0 (5 - 1) = 4`. -/
theorem no_rain_daily_decrement_witness :
    updatePlant "2024-01-02" false cexPlant =
      ({ cexPlant with wateringSchedule := some { cexSchedule with
          activeWaterDays := some (max 0 (5 - 1)),
          needsWatering := decide (max 0 ((5:Int) - 1) ≤ 0),
          weatherAffected := false,
          lastWateringUpdate := some "2024-01-02" } }, true) :=
  no_rain_daily_decrement "2024-01-02" cexPlant cexSchedule 5 rfl
    (by decide) rfl

/-- C7 witness at `cexPlant`. -/
theorem second_run_same_day_noop_witness :
    updatePlant "2024-01-02" false
        ((updatePlant "2024-01-02" false cexPlant).1) =
      ((updatePlant "2024-01-02" false cexPlant).1, false) :=
  second_run_same_day_noop "2024-01-02" cexPlant cexSchedule rfl

/-- The schedule `cexSchedule` already stamped 2024-01-02. -/
def stampedSchedule : WateringSchedule :=
  { cexSchedule with lastWateringUpdate := some "2024-01-02" }

/-- The plant `cexPlant` carrying `stampedSchedule` instead. -/
def stampedPlant : Plant :=
  { cexPlant with wateringSchedule := some stampedSchedule }

/-- C9 (amended) witness at `stampedPlant`. -/
theorem no_rain_same_day_noop_witness :
    updatePlant "2024-01-02" false stampedPlant = (stampedPlant, false) :=
  no_rain_same_day_noop "2024-01-02" stampedPlant stampedSchedule
    (by decide) (by decide)

/-- C2 (amended) witness at `freshPlant`. -/
theorem dirty_plant_needs_watering_iff_witness :
    ∃ a, freshPlantSchedule.activeWaterDays = some a ∧
      (freshPlantSchedule.needsWatering = true ↔ a ≤ 0) :=
  dirty_plant_needs_watering_iff "2024-01-02" false freshPlant
    freshPlantSchedule (by decide) (by decide) (by decide)

/-! ## The upsert payloads and the per-business frame -/

/-- Every document in the `updates` list is the three-field document
built by `mkUpsertDoc` from some plant of the business after its
transition. -/
lemma mem_updates (today : String) (has_rained : Bool)
    (business_id : String) (store : List Plant) (d : Plant)
    (hd : d ∈ (update_plants_watering_schedule today has_rained
        business_id store).2) :
    ∃ p, p ∈ plantsOf business_id store ∧
      d = mkUpsertDoc business_id (updatePlant today has_rained p).1 := by
  simp only [update_plants_watering_schedule, List.mem_map,
    List.mem_filter] at hd
  obtain ⟨r, ⟨⟨p, hp, rfl⟩, _⟩, rfl⟩ := hd
  exact ⟨p, hp, rfl⟩

/-- C10: every document handed to the persistence upsert carries only
`id`, `businessId` and `wateringSchedule`: its `businessId` is the
business being processed, its schedule slot is filled, and every other
field of the original plant document — `productType`, `location`,
`water_days` — is absent (`none`). -/
theorem upsert_payload_three_fields (today : String) (has_rained : Bool)
    (business_id : String) (store : List Plant) (d : Plant)
    (hd : d ∈ (update_plants_watering_schedule today has_rained
        business_id store).2) :
    d.businessId = business_id ∧ d.productType = none ∧
    d.location = none ∧ d.water_days = none ∧
    d.wateringSchedule.isSome = true := by
  obtain ⟨p, _, rfl⟩ := mem_updates today has_rained business_id store d hd
  exact ⟨rfl, rfl, rfl, rfl, updatePlant_isSome today has_rained p⟩

/-- The document written for `freshPlant` on a no-rain 2024-01-02 run. -/
def freshPayload : Plant :=
  { id := "p3", businessId := "b3", productType := none, location := none,
    water_days := none, wateringSchedule := some freshPlantSchedule }

/-- C10 witness on the one-plant store `[freshPlant]`. -/
theorem upsert_payload_three_fields_witness :
    freshPayload.businessId = "b3" ∧ freshPayload.productType = none ∧
    freshPayload.location = none ∧ freshPayload.water_days = none ∧
    freshPayload.wateringSchedule.isSome = true :=
  upsert_payload_three_fields "2024-01-02" false "b3" [freshPlant]
    freshPayload (by decide)

/-- An upsert of a document belonging to another business leaves the
documents of business `b` untouched. -/
lemma upsert_item_filter_of_ne (d : Plant) (b : String)
    (hb : d.businessId ≠ b) (store : List Plant) :
    (upsert_item store d).filter (fun q => decide (q.businessId = b)) =
      store.filter fun q => decide (q.businessId = b) := by
  have hmap : ∀ l : List Plant,
      (l.map fun q =>
          if q.id = d.id ∧ q.businessId = d.businessId then d else q).filter
        (fun q => decide (q.businessId = b)) =
      l.filter fun q => decide (q.businessId = b) := by
    intro l
    induction l with
    | nil => rfl
    | cons q t ih =>
      simp only [List.map_cons]
      by_cases hq : q.id = d.id ∧ q.businessId = d.businessId
      · have hqb : ¬ q.businessId = b := fun hc => hb (hq.2 ▸ hc)
        rw [if_pos hq]
        simp [hb, hqb, ih]
      · rw [if_neg hq]
        by_cases hqb : q.businessId = b <;> simp [hqb, ih]
  unfold upsert_item
  split
  · exact hmap store
  · simp [List.filter_append, hb]

/-- Applying a list of upserts all owned by other businesses leaves the
documents of business `b` untouched. -/
lemma applyUpserts_filter_of_ne (b : String) :
    ∀ (updates store : List Plant), (∀ d ∈ updates, d.businessId ≠ b) →
      (applyUpserts store updates).filter
          (fun q => decide (q.businessId = b)) =
        store.filter fun q => decide (q.businessId = b) := by
  intro updates
  induction updates with
  | nil => intro store _; rfl
  | cons d ds ih =>
    intro store h
    simp only [applyUpserts]
    rw [ih (upsert_item store d) fun x hx => h x (List.mem_cons_of_mem d hx),
      upsert_item_filter_of_ne d b (h d (List.mem_cons_self d ds)) store]

/-- Processing business `b'` writes only documents with
`businessId = b'`, so the documents of a different business `b` are
untouched. -/
lemma update_filter_of_ne (today : String) (has_rained : Bool)
    (b' : String) (store : List Plant) (b : String) (hne : b' ≠ b) :
    ((update_plants_watering_schedule today has_rained b' store).1).filter
        (fun q => decide (q.businessId = b)) =
      store.filter fun q => decide (q.businessId = b) := by
  apply applyUpserts_filter_of_ne
  intro d hd
  obtain ⟨p, _, rfl⟩ := mem_updates today has_rained b' store d hd
  simpa using hne

/-- The representative-location query reads only the documents of the
queried business. -/
lemma representativeGps_congr (store₁ store₂ : List Plant) (b : String)
    (h : store₁.filter (fun q => decide (q.businessId = b)) =
      store₂.filter fun q => decide (q.businessId = b)) :
    representativeGps store₁ b = representativeGps store₂ b := by
  simp only [representativeGps]
  rw [h]

/-- Core induction for C8: as long as business `b` has no representative
GPS location in the original store, a fault-free run preserves the
documents of `b` and completes. -/
lemma runBusinesses_preserve (cw : Int → Int → Option WeatherData)
    (today : String) (b : String) (store₀ : List Plant)
    (hgps : representativeGps store₀ b = none) :
    ∀ (bs : List String) (store : List Plant),
      store.filter (fun q => decide (q.businessId = b)) =
        store₀.filter (fun q => decide (q.businessId = b)) →
      ((runBusinesses cw today (fun _ => false) store bs).1).filter
          (fun q => decide (q.businessId = b)) =
        store₀.filter (fun q => decide (q.businessId = b)) ∧
      (runBusinesses cw today (fun _ => false) store bs).2 = false := by
  intro bs
  induction bs with
  | nil => intro store h; exact ⟨h, rfl⟩
  | cons b'' rest ih =>
    intro store h
    simp only [runBusinesses]
    cases hrep : representativeGps store b'' with
    | none => exact ih store h
    | some coords =>
      by_cases hbb : b'' = b
      · subst hbb
        rw [representativeGps_congr store store₀ b'' h, hgps] at hrep
        cases hrep
      · simp only [Bool.false_eq_true, if_false]
        apply ih
        rw [update_filter_of_ne today _ b'' store b hbb]
        exact h

/-- C8: a business none of whose documents has GPS coordinates is
skipped entirely: after a fault-free run its documents are exactly as
before (none mutated, none written), and the run completes. -/
theorem business_without_gps_untouched
    (cw : Int → Int → Option WeatherData) (today : String)
    (store : List Plant) (b : String)
    (hgps : ∀ p ∈ store, p.businessId = b → p.gps = none) :
    ((main cw today (fun _ => false) store).1).filter
        (fun q => decide (q.businessId = b)) =
      store.filter (fun q => decide (q.businessId = b)) ∧
    (main cw today (fun _ => false) store).2 = false := by
  have hrep : representativeGps store b = none := by
    simp only [representativeGps]
    have hnil : ((store.filter fun p => decide (p.businessId = b)).filter
        fun p => decide (p.productType = some "plant" ∧ p.gps.isSome)) =
        [] := by
      rw [List.filter_eq_nil_iff]
      intro p hp
      obtain ⟨hmem, hpb⟩ := List.mem_filter.mp hp
      have hpb' : p.businessId = b := by simpa using hpb
      simp [hgps p hmem hpb']
    rw [hnil]
    rfl
  exact runBusinesses_preserve cw today b store hrep
    (discoverBusinesses store) store rfl

/-- C8 witness: `freshPlant` has no location at all, so its business
`"b3"` is skipped. -/
theorem business_without_gps_untouched_witness :
    ((main (fun _ _ => none) "2024-01-02" (fun _ => false)
          [freshPlant]).1).filter
        (fun q => decide (q.businessId = "b3")) =
      [freshPlant].filter (fun q => decide (q.businessId = "b3")) ∧
    (main (fun _ _ => none) "2024-01-02" (fun _ => false)
        [freshPlant]).2 = false :=
  business_without_gps_untouched (fun _ _ => none) "2024-01-02"
    [freshPlant] "b3" (by decide)

/-! ## Per-business error handling -/

/-- A plant of business `"b1"` with GPS coordinates. -/
def gpsPlant1 : Plant :=
  { id := "p1", businessId := "b1", productType := some "plant",
    location := some { gpsCoordinates := some { latitude := 1, longitude := 2 } },
    water_days := none, wateringSchedule := some cexSchedule }

/-- A plant of business `"b2"` with GPS coordinates. -/
def gpsPlant2 : Plant :=
  { id := "p2", businessId := "b2", productType := some "plant",
    location := some { gpsCoordinates := some { latitude := 3, longitude := 4 } },
    water_days := none, wateringSchedule := some cexSchedule }

/-- A two-business store. -/
def demoStore : List Plant := [gpsPlant1, gpsPlant2]

/-- Fault injection: the plants query for business `"b1"` raises. -/
def failsB1 : String → Bool := fun b => b == "b1"

/-- C1 is false as stated: with a store-access failure on the first
business `"b1"`, the run aborts (`main`'s sole `try/except` logs and
re-raises), so it does not complete and business `"b2"` is never
processed — its plant keeps the stale 2024-01-01 stamp instead of being
decremented. -/
theorem run_aborts_on_store_failure_cex :
    main (fun _ _ => none) "2024-01-02" failsB1 demoStore =
      (demoStore, true) ∧
    ((main (fun _ _ => none) "2024-01-02" failsB1 demoStore).1.filter
        fun q => decide (q.businessId = "b2")) = [gpsPlant2] := by decide

/-- C1 (amended): a weather-fetch failure is caught inside
`check_weather` and treated as "no rain", so a run with no store
failures completes (second conjunct, for any oracle, including the
always-failing one).  A store-access failure while loading one
business's plants, however, is logged and re-raised — by
`update_plants_watering_schedule` and again by `main` — aborting the
whole run with the store exactly as it was when that business was
reached: that business's plants are unmodified and the remaining
businesses are not processed (first conjunct). -/
theorem store_failure_aborts_run :
    (∀ (cw : Int → Int → Option WeatherData) (today : String)
        (fails : String → Bool) (store : List Plant) (b : String)
        (rest : List String),
        fails b = true → (representativeGps store b).isSome = true →
        runBusinesses cw today fails store (b :: rest) = (store, true)) ∧
    (∀ (cw : Int → Int → Option WeatherData) (today : String)
        (store : List Plant) (bs : List String),
        (runBusinesses cw today (fun _ => false) store bs).2 = false) := by
  constructor
  · intro cw today fails store b rest hf hrep
    obtain ⟨coords, hc⟩ := Option.isSome_iff_exists.mp hrep
    simp [runBusinesses, hc, hf]
  · intro cw today store bs
    induction bs generalizing store with
    | nil => rfl
    | cons b rest ih =>
      simp only [runBusinesses]
      cases hrep : representativeGps store b with
      | none => exact ih store
      | some coords => simp [ih]

/-- C1 (amended) witness: the failing business `"b1"` aborts the run on
`demoStore` with the store unchanged. -/
theorem store_failure_aborts_run_witness :
    runBusinesses (fun _ _ => none) "2024-01-02" failsB1 demoStore
      ("b1" :: ["b2"]) = (demoStore, true) :=
  store_failure_aborts_run.1 (fun _ _ => none) "2024-01-02" failsB1
    demoStore "b1" ["b2"] (by decide) (by decide)

end DailyWateringUpdate
